import Mathlib

/-!
Verification of the projgeom library (src/proj.go): a shallow embedding of
the geometry reprojection dispatcher (`project`), the coordinate-transform
construction (`NewCoordinateTransform`), the `Reproject` entry point and the
`.prj` reader (`ReadPrj`), with theorems settling the spec's claims.

External collaborators (the gdal spatial-reference library, the Proj4
projection engine, io streams) are modelled as oracle parameters: pure
functions supplied to the embedded definitions.  Go `error` values are
modelled as `Option String` (`none` = nil, `some s` = an error whose
`Error()` message is `s`).  Coordinates are `Int × Int`: none of the code
under verification performs arithmetic on coordinate values (the projection
math lives in the external engine), so an exact stand-in for float64 is
faithful for the structural and error-path properties proved here.
-/

namespace Projgeom

/-- A 2D coordinate pair (Go float64 pair, modelled exactly). -/
abbrev Coord := Int × Int

/-- The geometry model (collaborator `github.com/twpayne/gogeom/geom`).
The five supported variants of the dispatcher, plus representative
unsupported variants (3D `Z`, measure `M`, combined `ZM`) that the
dispatcher's `default` case rejects.  `geom.T` nil is modelled as
`Option Geom` at use sites. -/
inductive Geom where
  | point : Coord → Geom
  | lineString : List Coord → Geom
  | multiLineString : List (List Coord) → Geom
  | polygon : List (List Coord) → Geom
  | multiPolygon : List (List (List Coord)) → Geom
  | pointZ : Coord → Int → Geom
  | pointM : Coord → Int → Geom
  | pointZM : Coord → Int → Int → Geom
  | lineStringZ : List (Coord × Int) → Geom
  | polygonM : List (List (Coord × Int)) → Geom
  deriving DecidableEq, Repr

/-- `reflect.TypeOf(g).String()`: the concrete shape identity carried by
`UnsupportedGeometryError`. -/
def geomTypeName : Geom → String
  | .point _ => "geom.Point"
  | .lineString _ => "geom.LineString"
  | .multiLineString _ => "geom.MultiLineString"
  | .polygon _ => "geom.Polygon"
  | .multiPolygon _ => "geom.MultiPolygon"
  | .pointZ _ _ => "geom.PointZ"
  | .pointM _ _ => "geom.PointM"
  | .pointZM _ _ _ => "geom.PointZM"
  | .lineStringZ _ => "geom.LineStringZ"
  | .polygonM _ => "geom.PolygonM"

/-- The shapes handled by a non-default case of the type switch in
`project` (src/proj.go lines 40-89). -/
def supported : Geom → Bool
  | .point _ => true
  | .lineString _ => true
  | .multiLineString _ => true
  | .polygon _ => true
  | .multiPolygon _ => true
  | _ => false

/-- All 2D coordinates of a geometry, in traversal order of the
dispatcher (unsupported variants contribute none: they are never
traversed). -/
def geomCoords : Geom → List Coord
  | .point c => [c]
  | .lineString cs => cs
  | .multiLineString lss => lss.flatten
  | .polygon rs => rs.flatten
  | .multiPolygon ps => ps.flatten.flatten
  | _ => []

/-- The structural shape of a geometry: its variant together with the
number of parts/rings and the point count of every coordinate sequence. -/
inductive Shape where
  | point : Shape
  | lineString : Nat → Shape
  | multiLineString : List Nat → Shape
  | polygon : List Nat → Shape
  | multiPolygon : List (List Nat) → Shape
  | other : String → Shape
  deriving DecidableEq, Repr

/-- Structural shape of a geometry value. -/
def geomShape : Geom → Shape
  | .point _ => .point
  | .lineString cs => .lineString cs.length
  | .multiLineString lss => .multiLineString (lss.map List.length)
  | .polygon rs => .polygon (rs.map List.length)
  | .multiPolygon ps => .multiPolygon (ps.map (List.map List.length))
  | g => .other (geomTypeName g)

/-- Errors surfaced by the dispatcher: the library's own
`UnsupportedGeometryError` (carrying the shape identity, src/proj.go
lines 22-28) or an error propagated from the per-coordinate transform
(projection engine domain errors and the like). -/
inductive GeomError where
  | unsupportedGeometry : String → GeomError
  | projection : String → GeomError
  deriving DecidableEq, Repr

/-- Apply a fallible function to every element in order, failing with the
first error (the Go pattern `for i := range { v, err := f(x); if err !=
nil { return nil, err } }` used by the per-shape helpers). -/
def mapE (h : α → Except GeomError β) : List α → Except GeomError (List β)
  | [] => .ok []
  | a :: as =>
    match h a with
    | .error e => .error e
    | .ok b =>
      match mapE h as with
      | .error e => .error e
      | .ok bs => .ok (b :: bs)

/-- Modelled from the spec: `projectPoint` (called from src/proj.go line 43
but defined in a repository file not under src/).  Spec §4.1: "For a Point:
apply `f` to its single coordinate pair; result is a new Point."  `f` is the
per-coordinate transform assembled from the projection handles and unit
flags. -/
def projectPoint (f : Coord → Except GeomError Coord) (c : Coord) :
    Except GeomError Coord := f c

/-- Modelled from the spec: `projectLineString` (src/proj.go line 55; body
not under src/).  Spec §4.1: "apply `f` to every coordinate in its ordered
sequence, preserving order and count." -/
def projectLineString (f : Coord → Except GeomError Coord)
    (cs : List Coord) : Except GeomError (List Coord) := mapE f cs

/-- Modelled from the spec: `projectMultiLineString` (src/proj.go line 68;
body not under src/).  Spec §4.1: "recursively transform each constituent
LineString in original order." -/
def projectMultiLineString (f : Coord → Except GeomError Coord)
    (lss : List (List Coord)) : Except GeomError (List (List Coord)) :=
  mapE (projectLineString f) lss

/-- Modelled from the spec: `projectPolygon` (src/proj.go line 72; body not
under src/).  Spec §4.1: "recursively transform each ring (exterior first,
then interior rings in original order) as a coordinate sequence." -/
def projectPolygon (f : Coord → Except GeomError Coord)
    (rs : List (List Coord)) : Except GeomError (List (List Coord)) :=
  mapE (mapE f) rs

/-- Modelled from the spec: `projectMultiPolygon` (src/proj.go line 85;
body not under src/).  Spec §4.1: "recursively transform each constituent
Polygon in original order." -/
def projectMultiPolygon (f : Coord → Except GeomError Coord)
    (ps : List (List (List Coord))) :
    Except GeomError (List (List (List Coord))) :=
  mapE (projectPolygon f) ps

/-- The dispatcher `project` (src/proj.go lines 36-90).  `nil` input
returns `nil, nil`; each supported shape is rebuilt from its transformed
coordinates; every other shape hits the `default` case and yields an
`UnsupportedGeometryError` carrying `reflect.TypeOf(g)`.  The source
threads `src, dst *proj.Proj, inputDegrees, outputDegrees bool` to the
per-shape helpers; here those four arguments are already bundled into the
per-coordinate transform `f` (see `Reproject`). -/
def project (f : Coord → Except GeomError Coord) :
    Option Geom → Except GeomError (Option Geom)
  | none => .ok none
  | some (.point c) =>
    match projectPoint f c with
    | .error e => .error e
    | .ok c2 => .ok (some (.point c2))
  | some (.lineString cs) =>
    match projectLineString f cs with
    | .error e => .error e
    | .ok cs2 => .ok (some (.lineString cs2))
  | some (.multiLineString lss) =>
    match projectMultiLineString f lss with
    | .error e => .error e
    | .ok lss2 => .ok (some (.multiLineString lss2))
  | some (.polygon rs) =>
    match projectPolygon f rs with
    | .error e => .error e
    | .ok rs2 => .ok (some (.polygon rs2))
  | some (.multiPolygon ps) =>
    match projectMultiPolygon f ps with
    | .error e => .error e
    | .ok ps2 => .ok (some (.multiPolygon ps2))
  | some g => .error (.unsupportedGeometry (geomTypeName g))

/-- A projection-engine context (`*proj.Proj`), opaque to this core; it is
built from Proj4 text, which we record. -/
structure ProjHandle where
  text : String
  deriving DecidableEq, Repr

/-- An opaque gdal spatial reference; all behaviour comes through the
oracle functions `isSame`, `toProj4`, `fromWKT`. -/
structure SpatialReference where
  id : Nat
  deriving DecidableEq, Repr

/-- The Go zero value `gdal.SpatialReference{}` returned by `ReadPrj` on a
stream read failure. -/
def SpatialReference.zero : SpatialReference := ⟨0⟩

/-- `CoordinateTransform` (src/proj.go lines 92-96).  `src`/`dst` are nil
pointers (`none`) until assigned; `new(CoordinateTransform)` zeroes every
field. -/
structure CoordinateTransform where
  src : Option ProjHandle := none
  dst : Option ProjHandle := none
  sameProj : Bool := false
  inputDegrees : Bool := false
  outputDegrees : Bool := false
  deriving DecidableEq, Repr

/-- `sub` occurs at the head of `s`. -/
def leadsWith : List Char → List Char → Bool
  | [], _ => true
  | _ :: _, [] => false
  | a :: as, b :: bs => a == b && leadsWith as bs

/-- `sub` occurs somewhere in `s`. -/
def occursIn (sub : List Char) : List Char → Bool
  | [] => leadsWith sub []
  | s@(_ :: rest) => leadsWith sub s || occursIn sub rest

/-- Go `strings.Contains(s, sub)` (the Proj4 text scanned here is ASCII,
so byte-level and character-level containment coincide). -/
def strContains (s sub : String) : Bool := occursIn sub.toList s.toList

/-- The guard `err != nil && err.Error() != "No Error"` (src/proj.go lines
105 and 116): a serialization error aborts construction unless it is the
benign "No Error" string sentinel. -/
def fatalProj4Err : Option String → Bool
  | none => false
  | some s => s ≠ "No Error"

/-- `NewCoordinateTransform` (src/proj.go lines 98-127).  Oracles:
`isSame` is `gdal.SpatialReference.IsSame`, `toProj4` is
`gdal.SpatialReference.ToProj4` returning the text and the Go error, and
`newProj` is `proj.NewProj`.  Mirrors the source control flow: compare
first; when not the same, serialize the source side, tolerate the
"No Error" sentinel, set `inputDegrees` from a "longlat"/"latlong"
substring match, build the source handle, then repeat for the destination
side; any fatal error returns immediately with the partially-built
struct (Go named returns). -/
def NewCoordinateTransform
    (isSame : SpatialReference → SpatialReference → Bool)
    (toProj4 : SpatialReference → String × Option String)
    (newProj : String → Except String ProjHandle)
    (src dst : SpatialReference) : CoordinateTransform × Option String :=
  let ct : CoordinateTransform := { sameProj := isSame src dst }
  if ct.sameProj then (ct, none)
  else
    let srcproj := (toProj4 src).1
    if fatalProj4Err (toProj4 src).2 then (ct, (toProj4 src).2)
    else
      let ct := { ct with
        inputDegrees := strContains srcproj "longlat" ||
          strContains srcproj "latlong" }
      match newProj srcproj with
      | .error e => (ct, some e)
      | .ok h =>
        let ct := { ct with src := some h }
        let dstproj := (toProj4 dst).1
        if fatalProj4Err (toProj4 dst).2 then (ct, (toProj4 dst).2)
        else
          let ct := { ct with
            outputDegrees := strContains dstproj "longlat" ||
              strContains dstproj "latlong" }
          match newProj dstproj with
          | .error e => (ct, some e)
          | .ok h2 => ({ ct with dst := some h2 }, none)

/-- `CoordinateTransform.Reproject` (src/proj.go lines 129-136).
`coordFn` is the per-coordinate transform of spec §4.2 (degree→radian
conversion, projection-engine call, radian→degree conversion), external to
src/; the source passes `ct.src, ct.dst, ct.inputDegrees, ct.outputDegrees`
to `project`, which threads them to it. -/
def Reproject
    (coordFn : Option ProjHandle → Option ProjHandle → Bool → Bool →
      Coord → Except GeomError Coord)
    (ct : CoordinateTransform) (g : Option Geom) :
    Except GeomError (Option Geom) :=
  if ct.sameProj then .ok g
  else project (coordFn ct.src ct.dst ct.inputDegrees ct.outputDegrees) g

/-- `ReadPrj` (src/proj.go lines 140-151).  `input` is the result of
`ioutil.ReadAll(f)`; `fromWKT` is `gdal.SpatialReference.FromWKT` applied
to a fresh `gdal.CreateSpatialReference("")`, returning the resulting
spatial reference and the Go error.  A `FromWKT` error whose message is
exactly "No Error" is discarded. -/
def ReadPrj (fromWKT : String → SpatialReference × Option String)
    (input : Except String String) : SpatialReference × Option String :=
  match input with
  | .error e => (SpatialReference.zero, some e)
  | .ok prj =>
    let sr := (fromWKT prj).1
    let err := (fromWKT prj).2
    match err with
    | some s => if s = "No Error" then (sr, none) else (sr, some s)
    | none => (sr, none)

/-! ## Helper lemmas about `mapE` -/

theorem mapE_ok_length {α β : Type} {h : α → Except GeomError β} :
    ∀ {l : List α} {l2 : List β}, mapE h l = .ok l2 → l2.length = l.length := by
  intro l
  induction l with
  | nil =>
    intro l2 hl
    simp [mapE] at hl
    simp [← hl]
  | cons a as ih =>
    intro l2 hl
    cases hha : h a with
    | error e => simp [mapE, hha] at hl
    | ok b =>
      cases hrec : mapE h as with
      | error e => simp [mapE, hha, hrec] at hl
      | ok bs =>
        simp [mapE, hha, hrec] at hl
        simp [← hl, ih hrec]

theorem mapE_error_mem {α β : Type} {h : α → Except GeomError β} :
    ∀ {l : List α} {e : GeomError}, mapE h l = .error e →
      ∃ a, a ∈ l ∧ h a = .error e := by
  intro l
  induction l with
  | nil =>
    intro e hl
    simp [mapE] at hl
  | cons a as ih =>
    intro e hl
    cases hha : h a with
    | error e2 =>
      simp [mapE, hha] at hl
      exact ⟨a, by simp, by rw [hha, hl]⟩
    | ok b =>
      cases hrec : mapE h as with
      | error e2 =>
        simp [mapE, hha, hrec] at hl
        obtain ⟨a2, ha2, hfa2⟩ := ih (by rw [hrec, hl])
        exact ⟨a2, by simp [ha2], hfa2⟩
      | ok bs => simp [mapE, hha, hrec] at hl

theorem mapE_error_of_mem {α β : Type} {h : α → Except GeomError β}
    {l : List α} {a : α} (ha : a ∈ l) {e : GeomError}
    (hfa : h a = .error e) : ∃ e2, mapE h l = .error e2 := by
  induction l with
  | nil => cases ha
  | cons b bs ih =>
    cases hhb : h b with
    | error e2 => exact ⟨e2, by simp [mapE, hhb]⟩
    | ok v =>
      have hab : a ∈ bs := by
        cases List.mem_cons.mp ha with
        | inl h1 =>
          subst h1
          rw [hfa] at hhb
          cases hhb
        | inr h2 => exact h2
      obtain ⟨e2, he2⟩ := ih hab
      exact ⟨e2, by simp [mapE, hhb, he2]⟩

theorem mapE_error_unique {α β : Type} {h : α → Except GeomError β}
    {e : GeomError} :
    ∀ {l : List α}, (∀ a ∈ l, (∃ b, h a = .ok b) ∨ h a = .error e) →
      (∃ a ∈ l, h a = .error e) → mapE h l = .error e := by
  intro l
  induction l with
  | nil =>
    intro _ hex
    simp at hex
  | cons b bs ih =>
    intro hall hex
    cases hhb : h b with
    | error e2 =>
      have he : e2 = e := by
        rcases hall b (by simp) with ⟨v, hv⟩ | hv
        · rw [hhb] at hv
          cases hv
        · rw [hhb] at hv
          injection hv
      subst he
      simp [mapE, hhb]
    | ok v =>
      have hex2 : ∃ a ∈ bs, h a = .error e := by
        obtain ⟨a, ha, hfa⟩ := hex
        cases List.mem_cons.mp ha with
        | inl h1 =>
          subst h1
          rw [hfa] at hhb
          cases hhb
        | inr h2 => exact ⟨a, h2, hfa⟩
      have hbs := ih (fun a ha => hall a (by simp [ha])) hex2
      simp [mapE, hhb, hbs]

theorem mapE_ok_map_eq {α β γ : Type} {h : α → Except GeomError β}
    {m1 : α → γ} {m2 : β → γ}
    (hm : ∀ a b, h a = .ok b → m2 b = m1 a) :
    ∀ {l : List α} {l2 : List β}, mapE h l = .ok l2 →
      l2.map m2 = l.map m1 := by
  intro l
  induction l with
  | nil =>
    intro l2 hl
    simp [mapE] at hl
    simp [← hl]
  | cons a as ih =>
    intro l2 hl
    cases hha : h a with
    | error e => simp [mapE, hha] at hl
    | ok b =>
      cases hrec : mapE h as with
      | error e => simp [mapE, hha, hrec] at hl
      | ok bs =>
        simp [mapE, hha, hrec] at hl
        simp [← hl, hm a b hha, ih hrec]

theorem mapE2_error_mem {α β : Type} {f : α → Except GeomError β}
    {lss : List (List α)} {e : GeomError}
    (h : mapE (mapE f) lss = .error e) :
    ∃ c, c ∈ lss.flatten ∧ f c = .error e := by
  obtain ⟨ls, hls, hlse⟩ := mapE_error_mem h
  obtain ⟨c, hc, hfc⟩ := mapE_error_mem hlse
  exact ⟨c, List.mem_flatten.mpr ⟨ls, hls, hc⟩, hfc⟩

theorem mapE2_error_of_mem {α β : Type} {f : α → Except GeomError β}
    {lss : List (List α)} {c : α} (hc : c ∈ lss.flatten) {e : GeomError}
    (hfc : f c = .error e) : ∃ e2, mapE (mapE f) lss = .error e2 := by
  obtain ⟨ls, hls, hcls⟩ := List.mem_flatten.mp hc
  obtain ⟨e1, he1⟩ := mapE_error_of_mem hcls hfc
  exact mapE_error_of_mem hls he1

theorem mapE2_error_unique {α β : Type} {f : α → Except GeomError β}
    {lss : List (List α)} {e : GeomError}
    (hall : ∀ c ∈ lss.flatten, (∃ b, f c = .ok b) ∨ f c = .error e)
    (hex : ∃ c ∈ lss.flatten, f c = .error e) :
    mapE (mapE f) lss = .error e := by
  apply mapE_error_unique
  · intro ls hls
    cases hres : mapE f ls with
    | ok bs => exact Or.inl ⟨bs, rfl⟩
    | error e2 =>
      right
      obtain ⟨c, hc, hfc⟩ := mapE_error_mem hres
      have hcf : c ∈ lss.flatten := List.mem_flatten.mpr ⟨ls, hls, hc⟩
      have he : e2 = e := by
        rcases hall c hcf with ⟨b, hb⟩ | hb
        · rw [hfc] at hb
          cases hb
        · rw [hfc] at hb
          injection hb
      rw [← he]
  · obtain ⟨c, hc, hfc⟩ := hex
    obtain ⟨ls, hls, hcls⟩ := List.mem_flatten.mp hc
    refine ⟨ls, hls, ?_⟩
    exact mapE_error_unique
      (fun c2 hc2 => hall c2 (List.mem_flatten.mpr ⟨ls, hls, hc2⟩))
      ⟨c, hcls, hfc⟩

theorem mapE3_error_mem {α β : Type} {f : α → Except GeomError β}
    {ps : List (List (List α))} {e : GeomError}
    (h : mapE (mapE (mapE f)) ps = .error e) :
    ∃ c, c ∈ ps.flatten.flatten ∧ f c = .error e := by
  obtain ⟨p, hp, hpe⟩ := mapE_error_mem h
  obtain ⟨c, hc, hfc⟩ := mapE2_error_mem hpe
  obtain ⟨r, hr, hcr⟩ := List.mem_flatten.mp hc
  exact ⟨c, List.mem_flatten.mpr ⟨r, List.mem_flatten.mpr ⟨p, hp, hr⟩, hcr⟩, hfc⟩

theorem mapE3_error_of_mem {α β : Type} {f : α → Except GeomError β}
    {ps : List (List (List α))} {c : α} (hc : c ∈ ps.flatten.flatten)
    {e : GeomError} (hfc : f c = .error e) :
    ∃ e2, mapE (mapE (mapE f)) ps = .error e2 := by
  obtain ⟨r, hr, hcr⟩ := List.mem_flatten.mp hc
  obtain ⟨p, hp, hrp⟩ := List.mem_flatten.mp hr
  obtain ⟨e1, he1⟩ :=
    mapE2_error_of_mem (List.mem_flatten.mpr ⟨r, hrp, hcr⟩) hfc
  exact mapE_error_of_mem hp he1

theorem mapE3_error_unique {α β : Type} {f : α → Except GeomError β}
    {ps : List (List (List α))} {e : GeomError}
    (hall : ∀ c ∈ ps.flatten.flatten, (∃ b, f c = .ok b) ∨ f c = .error e)
    (hex : ∃ c ∈ ps.flatten.flatten, f c = .error e) :
    mapE (mapE (mapE f)) ps = .error e := by
  apply mapE_error_unique
  · intro p hp
    cases hres : mapE (mapE f) p with
    | ok bs => exact Or.inl ⟨bs, rfl⟩
    | error e2 =>
      right
      obtain ⟨c, hc, hfc⟩ := mapE2_error_mem hres
      obtain ⟨r, hr, hcr⟩ := List.mem_flatten.mp hc
      have hcf : c ∈ ps.flatten.flatten :=
        List.mem_flatten.mpr ⟨r, List.mem_flatten.mpr ⟨p, hp, hr⟩, hcr⟩
      have he : e2 = e := by
        rcases hall c hcf with ⟨b, hb⟩ | hb
        · rw [hfc] at hb
          cases hb
        · rw [hfc] at hb
          injection hb
      rw [← he]
  · obtain ⟨c, hc, hfc⟩ := hex
    obtain ⟨r, hr, hcr⟩ := List.mem_flatten.mp hc
    obtain ⟨p, hp, hrp⟩ := List.mem_flatten.mp hr
    refine ⟨p, hp, ?_⟩
    apply mapE2_error_unique
    · intro c2 hc2
      obtain ⟨r2, hr2, hcr2⟩ := List.mem_flatten.mp hc2
      exact hall c2 (List.mem_flatten.mpr
        ⟨r2, List.mem_flatten.mpr ⟨p, hp, hr2⟩, hcr2⟩)
    · exact ⟨c, List.mem_flatten.mpr ⟨r, hrp, hcr⟩, hfc⟩

/-! ## Dispatcher claims -/

/-- Claim C3: passing the nil geometry sentinel to `Reproject` returns
that sentinel with no error, for every transform — identity
(`sameProj = true`) and non-identity alike. -/
theorem reproject_nil
    (coordFn : Option ProjHandle → Option ProjHandle → Bool → Bool →
      Coord → Except GeomError Coord)
    (ct : CoordinateTransform) :
    Reproject coordFn ct none = .ok none := by
  unfold Reproject
  cases h : ct.sameProj <;> simp [h, project]

/-- Claim C4: every geometry whose concrete shape is outside the five
supported ones (3D/measure variants and the like) makes the dispatcher
fail with an `UnsupportedGeometryError` carrying that shape's identity,
and no geometry is returned. -/
theorem project_unsupported
    (f : Coord → Except GeomError Coord) (g : Geom)
    (hg : supported g = false) :
    project f (some g) = .error (.unsupportedGeometry (geomTypeName g)) := by
  cases g <;> simp [supported] at hg <;> rfl

/-- Witness for C4 at a concrete 3D point. -/
theorem project_unsupported_witness :
    project (fun c => .ok c) (some (.pointZ (1, 2) 3)) =
      .error (.unsupportedGeometry "geom.PointZ") :=
  project_unsupported (fun c => .ok c) (.pointZ (1, 2) 3) rfl

/-- Claim C9: a successful reprojection of a supported geometry preserves
its structural shape exactly — same variant, same part/ring counts in the
same order, same point count per coordinate sequence. -/
theorem project_preserves_shape
    (f : Coord → Except GeomError Coord) (g g2 : Geom)
    (h : project f (some g) = .ok (some g2)) :
    geomShape g2 = geomShape g := by
  cases g with
  | point c =>
    cases hc : f c with
    | error e =>
      have hc2 : projectPoint f c = Except.error e := hc
      simp [project, hc2] at h
    | ok c2 =>
      have hc2 : projectPoint f c = Except.ok c2 := hc
      simp [project, hc2] at h
      subst h
      rfl
  | lineString cs =>
    cases hl : mapE f cs with
    | error e =>
      have hl2 : projectLineString f cs = Except.error e := hl
      simp [project, hl2] at h
    | ok cs2 =>
      have hl2 : projectLineString f cs = Except.ok cs2 := hl
      simp [project, hl2] at h
      subst h
      simp [geomShape, mapE_ok_length hl]
  | multiLineString lss =>
    cases hl : mapE (mapE f) lss with
    | error e =>
      have hl2 : projectMultiLineString f lss = Except.error e := hl
      simp [project, hl2] at h
    | ok lss2 =>
      have hl2 : projectMultiLineString f lss = Except.ok lss2 := hl
      simp [project, hl2] at h
      subst h
      have hlen : lss2.map List.length = lss.map List.length :=
        mapE_ok_map_eq (fun _ _ hab => mapE_ok_length hab) hl
      simp [geomShape, hlen]
  | polygon rs =>
    cases hl : mapE (mapE f) rs with
    | error e =>
      have hl2 : projectPolygon f rs = Except.error e := hl
      simp [project, hl2] at h
    | ok rs2 =>
      have hl2 : projectPolygon f rs = Except.ok rs2 := hl
      simp [project, hl2] at h
      subst h
      have hlen : rs2.map List.length = rs.map List.length :=
        mapE_ok_map_eq (fun _ _ hab => mapE_ok_length hab) hl
      simp [geomShape, hlen]
  | multiPolygon ps =>
    cases hl : mapE (mapE (mapE f)) ps with
    | error e =>
      have hl2 : projectMultiPolygon f ps = Except.error e := hl
      simp [project, hl2] at h
    | ok ps2 =>
      have hl2 : projectMultiPolygon f ps = Except.ok ps2 := hl
      simp [project, hl2] at h
      subst h
      have hlen : ps2.map (List.map List.length) =
          ps.map (List.map List.length) :=
        mapE_ok_map_eq
          (fun _ _ hab =>
            mapE_ok_map_eq (fun _ _ hab2 => mapE_ok_length hab2) hab) hl
      simp [geomShape, hlen]
  | pointZ c z =>
    simp [project] at h
  | pointM c m =>
    simp [project] at h
  | pointZM c z m =>
    simp [project] at h
  | lineStringZ cs =>
    simp [project] at h
  | polygonM rs =>
    simp [project] at h

/-- Witness for C9: a two-point line string through a coordinate-swapping
transform keeps its shape. -/
theorem project_preserves_shape_witness :
    geomShape (.lineString [((2 : Int), (1 : Int)), (3, 2)]) =
      geomShape (.lineString [((1 : Int), (2 : Int)), (2, 3)]) :=
  project_preserves_shape (fun c => .ok (c.2, c.1))
    (.lineString [(1, 2), (2, 3)]) (.lineString [(2, 1), (3, 2)]) rfl

/-- Claim C8: for every supported geometry and every per-coordinate
transform `f`, if `f` fails on a coordinate of the geometry then the whole
operation fails (returning an error of a failing coordinate, hence no
partial geometry); and when every coordinate either succeeds or fails with
that same error `e`, the operation fails with exactly `e`. -/
theorem project_error_propagation
    (f : Coord → Except GeomError Coord) (g : Geom)
    (hsup : supported g = true) (c : Coord) (e : GeomError)
    (hc : c ∈ geomCoords g) (hf : f c = .error e) :
    (∃ e2, project f (some g) = .error e2 ∧
      ∃ c2, c2 ∈ geomCoords g ∧ f c2 = .error e2) ∧
    ((∀ c2 ∈ geomCoords g, (∃ b, f c2 = .ok b) ∨ f c2 = .error e) →
      project f (some g) = .error e) := by
  cases g with
  | point c0 =>
    simp only [geomCoords, List.mem_singleton] at hc
    subst hc
    constructor
    · refine ⟨e, ?_, c, by simp [geomCoords], hf⟩
      have hp : projectPoint f c = Except.error e := hf
      simp [project, hp]
    · intro _
      have hp : projectPoint f c = Except.error e := hf
      simp [project, hp]
  | lineString cs =>
    simp only [geomCoords] at hc
    constructor
    · obtain ⟨e1, he1⟩ := mapE_error_of_mem hc hf
      obtain ⟨c2, hc2, hfc2⟩ := mapE_error_mem he1
      have he1b : projectLineString f cs = Except.error e1 := he1
      exact ⟨e1, by simp [project, he1b], c2, hc2, hfc2⟩
    · intro hall
      simp only [geomCoords] at hall
      have h2 : mapE f cs = Except.error e :=
        mapE_error_unique hall ⟨c, hc, hf⟩
      have h3 : projectLineString f cs = Except.error e := h2
      simp [project, h3]
  | multiLineString lss =>
    simp only [geomCoords] at hc
    constructor
    · obtain ⟨e1, he1⟩ := mapE2_error_of_mem hc hf
      obtain ⟨c2, hc2, hfc2⟩ := mapE2_error_mem he1
      have he1b : projectMultiLineString f lss = Except.error e1 := he1
      exact ⟨e1, by simp [project, he1b], c2, hc2, hfc2⟩
    · intro hall
      simp only [geomCoords] at hall
      have h2 : mapE (mapE f) lss = Except.error e :=
        mapE2_error_unique hall ⟨c, hc, hf⟩
      have h3 : projectMultiLineString f lss = Except.error e := h2
      simp [project, h3]
  | polygon rs =>
    simp only [geomCoords] at hc
    constructor
    · obtain ⟨e1, he1⟩ := mapE2_error_of_mem hc hf
      obtain ⟨c2, hc2, hfc2⟩ := mapE2_error_mem he1
      have he1b : projectPolygon f rs = Except.error e1 := he1
      exact ⟨e1, by simp [project, he1b], c2, hc2, hfc2⟩
    · intro hall
      simp only [geomCoords] at hall
      have h2 : mapE (mapE f) rs = Except.error e :=
        mapE2_error_unique hall ⟨c, hc, hf⟩
      have h3 : projectPolygon f rs = Except.error e := h2
      simp [project, h3]
  | multiPolygon ps =>
    simp only [geomCoords] at hc
    constructor
    · obtain ⟨e1, he1⟩ := mapE3_error_of_mem hc hf
      obtain ⟨c2, hc2, hfc2⟩ := mapE3_error_mem he1
      have he1b : projectMultiPolygon f ps = Except.error e1 := he1
      exact ⟨e1, by simp [project, he1b], c2, hc2, hfc2⟩
    · intro hall
      simp only [geomCoords] at hall
      have h2 : mapE (mapE (mapE f)) ps = Except.error e :=
        mapE3_error_unique hall ⟨c, hc, hf⟩
      have h3 : projectMultiPolygon f ps = Except.error e := h2
      simp [project, h3]
  | pointZ c0 z => simp [supported] at hsup
  | pointM c0 m => simp [supported] at hsup
  | pointZM c0 z m => simp [supported] at hsup
  | lineStringZ cs => simp [supported] at hsup
  | polygonM rs => simp [supported] at hsup

/-- Witness for C8: a line string whose second coordinate is rejected by
the per-coordinate transform. -/
theorem project_error_propagation_witness :
    (∃ e2, project
        (fun c => if c = ((1 : Int), (1 : Int)) then
          Except.error (GeomError.projection "tolerance condition error")
          else Except.ok c)
        (some (.lineString [(0, 0), (1, 1)])) = .error e2 ∧
      ∃ c2, c2 ∈ geomCoords (.lineString [(0, 0), (1, 1)]) ∧
        (if c2 = ((1 : Int), (1 : Int)) then
          Except.error (GeomError.projection "tolerance condition error")
          else Except.ok c2) = .error e2) ∧
    ((∀ c2 ∈ geomCoords (Geom.lineString [(0, 0), (1, 1)]),
        (∃ b, (if c2 = ((1 : Int), (1 : Int)) then
          Except.error (GeomError.projection "tolerance condition error")
          else Except.ok c2) = Except.ok b) ∨
        (if c2 = ((1 : Int), (1 : Int)) then
          Except.error (GeomError.projection "tolerance condition error")
          else Except.ok c2) =
          Except.error (GeomError.projection "tolerance condition error")) →
      project
        (fun c => if c = ((1 : Int), (1 : Int)) then
          Except.error (GeomError.projection "tolerance condition error")
          else Except.ok c)
        (some (.lineString [(0, 0), (1, 1)])) =
        .error (.projection "tolerance condition error")) :=
  project_error_propagation
    (fun c => if c = ((1 : Int), (1 : Int)) then
      Except.error (GeomError.projection "tolerance condition error")
      else Except.ok c)
    (.lineString [(0, 0), (1, 1)]) rfl (1, 1)
    (.projection "tolerance condition error") (by simp [geomCoords]) rfl

/-! ## Control-flow lemmas for `NewCoordinateTransform` -/

theorem nct_case_fatal_src
    (isSame : SpatialReference → SpatialReference → Bool)
    (toProj4 : SpatialReference → String × Option String)
    (newProj : String → Except String ProjHandle)
    (src dst : SpatialReference)
    (hns : isSame src dst = false)
    (hfs : fatalProj4Err (toProj4 src).2 = true) :
    NewCoordinateTransform isSame toProj4 newProj src dst =
      ({ sameProj := false }, (toProj4 src).2) := by
  simp [NewCoordinateTransform, hns, hfs]

theorem nct_case_src_handle_err
    (isSame : SpatialReference → SpatialReference → Bool)
    (toProj4 : SpatialReference → String × Option String)
    (newProj : String → Except String ProjHandle)
    (src dst : SpatialReference)
    (hns : isSame src dst = false)
    (hfs : fatalProj4Err (toProj4 src).2 = false)
    (e : String) (hnp : newProj (toProj4 src).1 = .error e) :
    NewCoordinateTransform isSame toProj4 newProj src dst =
      ({ sameProj := false,
         inputDegrees := strContains (toProj4 src).1 "longlat" ||
           strContains (toProj4 src).1 "latlong" }, some e) := by
  simp [NewCoordinateTransform, hns, hfs, hnp]

theorem nct_case_fatal_dst
    (isSame : SpatialReference → SpatialReference → Bool)
    (toProj4 : SpatialReference → String × Option String)
    (newProj : String → Except String ProjHandle)
    (src dst : SpatialReference)
    (hns : isSame src dst = false)
    (hfs : fatalProj4Err (toProj4 src).2 = false)
    (h1 : ProjHandle) (hnp : newProj (toProj4 src).1 = .ok h1)
    (hfd : fatalProj4Err (toProj4 dst).2 = true) :
    NewCoordinateTransform isSame toProj4 newProj src dst =
      ({ sameProj := false,
         inputDegrees := strContains (toProj4 src).1 "longlat" ||
           strContains (toProj4 src).1 "latlong",
         src := some h1 }, (toProj4 dst).2) := by
  simp [NewCoordinateTransform, hns, hfs, hnp, hfd]

theorem nct_case_dst_handle_err
    (isSame : SpatialReference → SpatialReference → Bool)
    (toProj4 : SpatialReference → String × Option String)
    (newProj : String → Except String ProjHandle)
    (src dst : SpatialReference)
    (hns : isSame src dst = false)
    (hfs : fatalProj4Err (toProj4 src).2 = false)
    (h1 : ProjHandle) (hnp : newProj (toProj4 src).1 = .ok h1)
    (hfd : fatalProj4Err (toProj4 dst).2 = false)
    (e : String) (hnd : newProj (toProj4 dst).1 = .error e) :
    NewCoordinateTransform isSame toProj4 newProj src dst =
      ({ sameProj := false,
         inputDegrees := strContains (toProj4 src).1 "longlat" ||
           strContains (toProj4 src).1 "latlong",
         src := some h1,
         outputDegrees := strContains (toProj4 dst).1 "longlat" ||
           strContains (toProj4 dst).1 "latlong" }, some e) := by
  simp [NewCoordinateTransform, hns, hfs, hnp, hfd, hnd]

theorem nct_case_ok
    (isSame : SpatialReference → SpatialReference → Bool)
    (toProj4 : SpatialReference → String × Option String)
    (newProj : String → Except String ProjHandle)
    (src dst : SpatialReference)
    (hns : isSame src dst = false)
    (hfs : fatalProj4Err (toProj4 src).2 = false)
    (h1 : ProjHandle) (hnp : newProj (toProj4 src).1 = .ok h1)
    (hfd : fatalProj4Err (toProj4 dst).2 = false)
    (h2 : ProjHandle) (hnd : newProj (toProj4 dst).1 = .ok h2) :
    NewCoordinateTransform isSame toProj4 newProj src dst =
      ({ sameProj := false,
         inputDegrees := strContains (toProj4 src).1 "longlat" ||
           strContains (toProj4 src).1 "latlong",
         src := some h1,
         outputDegrees := strContains (toProj4 dst).1 "longlat" ||
           strContains (toProj4 dst).1 "latlong",
         dst := some h2 }, none) := by
  simp [NewCoordinateTransform, hns, hfs, hnp, hfd, hnd]

/-- A fatal serialization error is a `some` error distinct from the
sentinel. -/
theorem fatalProj4Err_eq_true {o : Option String} :
    fatalProj4Err o = true ↔ ∃ s, o = some s ∧ s ≠ "No Error" := by
  cases o with
  | none => simp [fatalProj4Err]
  | some s => simp [fatalProj4Err]

/-! ## Coordinate-transform claims -/

/-- Claim C1: when the source and destination spatial references compare
equal (`IsSame`), `Reproject` on the constructed transform returns every
supported geometry unchanged — same shape and coordinate values — with no
error. -/
theorem reproject_identity_supported
    (coordFn : Option ProjHandle → Option ProjHandle → Bool → Bool →
      Coord → Except GeomError Coord)
    (isSame : SpatialReference → SpatialReference → Bool)
    (toProj4 : SpatialReference → String × Option String)
    (newProj : String → Except String ProjHandle)
    (src dst : SpatialReference) (hsame : isSame src dst = true)
    (g : Geom) (hsup : supported g = true) :
    Reproject coordFn (NewCoordinateTransform isSame toProj4 newProj
      src dst).1 (some g) = .ok (some g) := by
  simp [NewCoordinateTransform, Reproject, hsame]

/-- Witness for C1 at a concrete point geometry. -/
theorem reproject_identity_supported_witness :
    Reproject (fun _ _ _ _ c => .ok c)
      (NewCoordinateTransform (fun _ _ => true)
        (fun _ => ("+proj=longlat", none)) (fun s => .ok ⟨s⟩)
        ⟨0⟩ ⟨0⟩).1 (some (.point (-93, 44))) = .ok (some (.point (-93, 44))) :=
  reproject_identity_supported (fun _ _ _ _ c => .ok c) (fun _ _ => true)
    (fun _ => ("+proj=longlat", none)) (fun s => .ok ⟨s⟩) ⟨0⟩ ⟨0⟩ rfl
    (.point (-93, 44)) rfl

/-- Claim C10: on the identity path, `Reproject` returns every geometry
value unchanged with no error — including nil and shapes outside the
supported set — because the `sameProj` short-circuit runs before the
dispatcher, so no `UnsupportedGeometryError` can arise. -/
theorem reproject_identity_any_geom
    (coordFn : Option ProjHandle → Option ProjHandle → Bool → Bool →
      Coord → Except GeomError Coord)
    (isSame : SpatialReference → SpatialReference → Bool)
    (toProj4 : SpatialReference → String × Option String)
    (newProj : String → Except String ProjHandle)
    (src dst : SpatialReference) (hsame : isSame src dst = true)
    (g : Option Geom) :
    Reproject coordFn (NewCoordinateTransform isSame toProj4 newProj
      src dst).1 g = .ok g := by
  simp [NewCoordinateTransform, Reproject, hsame]

/-- Witness for C10 at a concrete unsupported (3D) geometry. -/
theorem reproject_identity_any_geom_witness :
    Reproject (fun _ _ _ _ c => .ok c)
      (NewCoordinateTransform (fun _ _ => true)
        (fun _ => ("+proj=longlat", none)) (fun s => .ok ⟨s⟩)
        ⟨0⟩ ⟨0⟩).1 (some (.pointZ (1, 2) 3)) =
      .ok (some (.pointZ (1, 2) 3)) :=
  reproject_identity_any_geom (fun _ _ _ _ c => .ok c) (fun _ _ => true)
    (fun _ => ("+proj=longlat", none)) (fun s => .ok ⟨s⟩) ⟨0⟩ ⟨0⟩ rfl
    (some (.pointZ (1, 2) 3))

/-- Claim C2: when the two spatial references compare equal,
`NewCoordinateTransform` marks the transform as identity and performs no
further setup: the result is exactly the identity transform with both
projection handles nil and no error, for every serialization and
handle-construction oracle — so no Proj4 serialization or handle
construction can influence (or be needed for) the outcome. -/
theorem newCoordinateTransform_same_skips_setup
    (isSame : SpatialReference → SpatialReference → Bool)
    (toProj4 : SpatialReference → String × Option String)
    (newProj : String → Except String ProjHandle)
    (src dst : SpatialReference) (hsame : isSame src dst = true) :
    NewCoordinateTransform isSame toProj4 newProj src dst =
      ({ src := none, dst := none, sameProj := true,
         inputDegrees := false, outputDegrees := false }, none) := by
  simp [NewCoordinateTransform, hsame]

/-- Witness for C2 with concrete oracles whose serialization would fail if
it were attempted. -/
theorem newCoordinateTransform_same_skips_setup_witness :
    NewCoordinateTransform (fun _ _ => true)
      (fun _ => ("", some "serialization failure"))
      (fun _ => .error "handle failure") ⟨3⟩ ⟨3⟩ =
      ({ src := none, dst := none, sameProj := true,
         inputDegrees := false, outputDegrees := false }, none) :=
  newCoordinateTransform_same_skips_setup (fun _ _ => true)
    (fun _ => ("", some "serialization failure"))
    (fun _ => .error "handle failure") ⟨3⟩ ⟨3⟩ rfl

/-- Claim C5: on a successful non-identity construction, the
degrees-unit flag of each side is true exactly when that side's Proj4 text
contains "longlat" or "latlong". -/
theorem newCoordinateTransform_degree_flags
    (isSame : SpatialReference → SpatialReference → Bool)
    (toProj4 : SpatialReference → String × Option String)
    (newProj : String → Except String ProjHandle)
    (src dst : SpatialReference)
    (hns : isSame src dst = false)
    (hok : (NewCoordinateTransform isSame toProj4 newProj src dst).2 =
      none) :
    (NewCoordinateTransform isSame toProj4 newProj src dst).1.inputDegrees
      = (strContains (toProj4 src).1 "longlat" ||
        strContains (toProj4 src).1 "latlong") ∧
    (NewCoordinateTransform isSame toProj4 newProj src dst).1.outputDegrees
      = (strContains (toProj4 dst).1 "longlat" ||
        strContains (toProj4 dst).1 "latlong") := by
  cases hfs : fatalProj4Err (toProj4 src).2 with
  | true =>
    rw [nct_case_fatal_src isSame toProj4 newProj src dst hns hfs] at hok
    obtain ⟨s, hs, hne⟩ := fatalProj4Err_eq_true.mp hfs
    rw [hs] at hok
    cases hok
  | false =>
    cases hnp : newProj (toProj4 src).1 with
    | error e =>
      rw [nct_case_src_handle_err isSame toProj4 newProj src dst hns hfs
        e hnp] at hok
      cases hok
    | ok h1 =>
      cases hfd : fatalProj4Err (toProj4 dst).2 with
      | true =>
        rw [nct_case_fatal_dst isSame toProj4 newProj src dst hns hfs
          h1 hnp hfd] at hok
        obtain ⟨s, hs, hne⟩ := fatalProj4Err_eq_true.mp hfd
        rw [hs] at hok
        cases hok
      | false =>
        cases hnd : newProj (toProj4 dst).1 with
        | error e =>
          rw [nct_case_dst_handle_err isSame toProj4 newProj src dst hns
            hfs h1 hnp hfd e hnd] at hok
          cases hok
        | ok h2 =>
          rw [nct_case_ok isSame toProj4 newProj src dst hns hfs h1 hnp
            hfd h2 hnd]
          exact ⟨rfl, rfl⟩

/-- Witness for C5: a geographic source ("longlat" in its text) and a
projected destination (no "longlat"/"latlong"). -/
theorem newCoordinateTransform_degree_flags_witness :
    ((NewCoordinateTransform (fun _ _ => false)
        (fun sr => if sr.id = 0 then
          ("+proj=longlat +datum=WGS84", none)
          else ("+proj=lcc +lat_1=33", none))
        (fun s => .ok ⟨s⟩) ⟨0⟩ ⟨1⟩).1.inputDegrees
      = (strContains "+proj=longlat +datum=WGS84" "longlat" ||
        strContains "+proj=longlat +datum=WGS84" "latlong")) ∧
    ((NewCoordinateTransform (fun _ _ => false)
        (fun sr => if sr.id = 0 then
          ("+proj=longlat +datum=WGS84", none)
          else ("+proj=lcc +lat_1=33", none))
        (fun s => .ok ⟨s⟩) ⟨0⟩ ⟨1⟩).1.outputDegrees
      = (strContains "+proj=lcc +lat_1=33" "longlat" ||
        strContains "+proj=lcc +lat_1=33" "latlong")) :=
  newCoordinateTransform_degree_flags (fun _ _ => false)
    (fun sr => if sr.id = 0 then ("+proj=longlat +datum=WGS84", none)
      else ("+proj=lcc +lat_1=33", none))
    (fun s => .ok ⟨s⟩) ⟨0⟩ ⟨1⟩ rfl rfl
/-- Claim C6: the "No Error" string sentinel is treated as success, not
failure: `NewCoordinateTransform` completes construction (no error, both
handles built) when `ToProj4` reports the sentinel on either side, and
`ReadPrj` returns the constructed spatial reference with a nil error when
the WKT parse reports the sentinel. -/
theorem noError_sentinel_is_success
    (isSame : SpatialReference → SpatialReference → Bool)
    (toProj4 : SpatialReference → String × Option String)
    (newProj : String → Except String ProjHandle)
    (src dst : SpatialReference)
    (fromWKT : String → SpatialReference × Option String)
    (prj : String) (sr : SpatialReference)
    (hns : isSame src dst = false)
    (st dt : String)
    (hts : toProj4 src = (st, some "No Error"))
    (htd : toProj4 dst = (dt, some "No Error"))
    (h1 h2 : ProjHandle)
    (hnp : newProj st = .ok h1) (hnd : newProj dt = .ok h2)
    (hwk : fromWKT prj = (sr, some "No Error")) :
    (NewCoordinateTransform isSame toProj4 newProj src dst).2 = none ∧
    (NewCoordinateTransform isSame toProj4 newProj src dst).1.src =
      some h1 ∧
    (NewCoordinateTransform isSame toProj4 newProj src dst).1.dst =
      some h2 ∧
    ReadPrj fromWKT (.ok prj) = (sr, none) := by
  have hfs : fatalProj4Err (toProj4 src).2 = false := by
    rw [hts]
    rfl
  have hfd : fatalProj4Err (toProj4 dst).2 = false := by
    rw [htd]
    rfl
  have hnp2 : newProj (toProj4 src).1 = .ok h1 := by
    rw [hts]
    exact hnp
  have hnd2 : newProj (toProj4 dst).1 = .ok h2 := by
    rw [htd]
    exact hnd
  rw [nct_case_ok isSame toProj4 newProj src dst hns hfs h1 hnp2 hfd h2
    hnd2]
  refine ⟨rfl, rfl, rfl, ?_⟩
  simp [ReadPrj, hwk]

/-- Witness for C6 with concrete oracles that all report the sentinel. -/
theorem noError_sentinel_is_success_witness :
    (NewCoordinateTransform (fun _ _ => false)
      (fun sr => if sr.id = 0 then ("+proj=longlat", some "No Error")
        else ("+proj=lcc", some "No Error"))
      (fun s => .ok ⟨s⟩) ⟨0⟩ ⟨1⟩).2 = none ∧
    (NewCoordinateTransform (fun _ _ => false)
      (fun sr => if sr.id = 0 then ("+proj=longlat", some "No Error")
        else ("+proj=lcc", some "No Error"))
      (fun s => .ok ⟨s⟩) ⟨0⟩ ⟨1⟩).1.src = some ⟨"+proj=longlat"⟩ ∧
    (NewCoordinateTransform (fun _ _ => false)
      (fun sr => if sr.id = 0 then ("+proj=longlat", some "No Error")
        else ("+proj=lcc", some "No Error"))
      (fun s => .ok ⟨s⟩) ⟨0⟩ ⟨1⟩).1.dst = some ⟨"+proj=lcc"⟩ ∧
    ReadPrj (fun _ => (⟨7⟩, some "No Error")) (.ok "PROJCS[...]") =
      (⟨7⟩, none) :=
  noError_sentinel_is_success (fun _ _ => false)
    (fun sr => if sr.id = 0 then ("+proj=longlat", some "No Error")
      else ("+proj=lcc", some "No Error"))
    (fun s => .ok ⟨s⟩) ⟨0⟩ ⟨1⟩ (fun _ => (⟨7⟩, some "No Error"))
    "PROJCS[...]" ⟨7⟩ rfl "+proj=longlat" "+proj=lcc" rfl rfl
    ⟨"+proj=longlat"⟩ ⟨"+proj=lcc"⟩ rfl rfl rfl

/-- Claim C7: during non-identity construction, a non-sentinel
serialization error on either side, or a handle-construction failure on
either side, aborts `NewCoordinateTransform` with exactly that error; on
every abort the destination handle (and, for source-side aborts, the
source handle too) is never built, so no usable transform is returned. -/
theorem newCoordinateTransform_all_or_nothing
    (isSame : SpatialReference → SpatialReference → Bool)
    (toProj4 : SpatialReference → String × Option String)
    (newProj : String → Except String ProjHandle)
    (src dst : SpatialReference)
    (hns : isSame src dst = false) :
    (∀ e, (toProj4 src).2 = some e → e ≠ "No Error" →
      (NewCoordinateTransform isSame toProj4 newProj src dst).2 = some e ∧
      (NewCoordinateTransform isSame toProj4 newProj src dst).1.src =
        none ∧
      (NewCoordinateTransform isSame toProj4 newProj src dst).1.dst =
        none) ∧
    (fatalProj4Err (toProj4 src).2 = false → ∀ e,
      newProj (toProj4 src).1 = .error e →
      (NewCoordinateTransform isSame toProj4 newProj src dst).2 = some e ∧
      (NewCoordinateTransform isSame toProj4 newProj src dst).1.src =
        none ∧
      (NewCoordinateTransform isSame toProj4 newProj src dst).1.dst =
        none) ∧
    (fatalProj4Err (toProj4 src).2 = false → ∀ h1,
      newProj (toProj4 src).1 = .ok h1 → ∀ e,
      (toProj4 dst).2 = some e → e ≠ "No Error" →
      (NewCoordinateTransform isSame toProj4 newProj src dst).2 = some e ∧
      (NewCoordinateTransform isSame toProj4 newProj src dst).1.dst =
        none) ∧
    (fatalProj4Err (toProj4 src).2 = false → ∀ h1,
      newProj (toProj4 src).1 = .ok h1 →
      fatalProj4Err (toProj4 dst).2 = false → ∀ e,
      newProj (toProj4 dst).1 = .error e →
      (NewCoordinateTransform isSame toProj4 newProj src dst).2 = some e ∧
      (NewCoordinateTransform isSame toProj4 newProj src dst).1.dst =
        none) := by
  refine ⟨?_, ?_, ?_, ?_⟩
  · intro e he hne
    have hfs : fatalProj4Err (toProj4 src).2 = true :=
      fatalProj4Err_eq_true.mpr ⟨e, he, hne⟩
    rw [nct_case_fatal_src isSame toProj4 newProj src dst hns hfs]
    exact ⟨he, rfl, rfl⟩
  · intro hfs e hnp
    rw [nct_case_src_handle_err isSame toProj4 newProj src dst hns hfs
      e hnp]
    exact ⟨rfl, rfl, rfl⟩
  · intro hfs h1 hnp e he hne
    have hfd : fatalProj4Err (toProj4 dst).2 = true :=
      fatalProj4Err_eq_true.mpr ⟨e, he, hne⟩
    rw [nct_case_fatal_dst isSame toProj4 newProj src dst hns hfs h1 hnp
      hfd]
    exact ⟨he, rfl⟩
  · intro hfs h1 hnp hfd e hnd
    rw [nct_case_dst_handle_err isSame toProj4 newProj src dst hns hfs
      h1 hnp hfd e hnd]
    exact ⟨rfl, rfl⟩

/-- Witness for C7: a source side whose Proj4 serialization fails with a
non-sentinel error message. -/
theorem newCoordinateTransform_all_or_nothing_witness :
    (NewCoordinateTransform (fun _ _ => false)
      (fun _ => ("", some "projection not named"))
      (fun s => .ok ⟨s⟩) ⟨0⟩ ⟨1⟩).2 = some "projection not named" ∧
    (NewCoordinateTransform (fun _ _ => false)
      (fun _ => ("", some "projection not named"))
      (fun s => .ok ⟨s⟩) ⟨0⟩ ⟨1⟩).1.src = none ∧
    (NewCoordinateTransform (fun _ _ => false)
      (fun _ => ("", some "projection not named"))
      (fun s => .ok ⟨s⟩) ⟨0⟩ ⟨1⟩).1.dst = none :=
  (newCoordinateTransform_all_or_nothing (fun _ _ => false)
    (fun _ => ("", some "projection not named"))
    (fun s => .ok ⟨s⟩) ⟨0⟩ ⟨1⟩ rfl).1 "projection not named" rfl
    (by decide)
end Projgeom
